import Mathlib

/-!
# Verification of the vapix system-log parser (`src/v3/system_log.rs`, `src/v3/system_log/raw_timestamp.rs`)

A shallow embedding of the system-log entry parser and timestamp resolver.

Modelling conventions:
* Rust `&str` values are modelled as `List Char`.  The log lines at stake are ASCII, where
  Rust's byte indices and `List Char` indices coincide; `&s[a..b]` becomes
  `(s.drop a).take (b - a)`.
* `Result<T, EntryParseError>` becomes `RResult T`, with a third constructor `panic` for the
  places where the Rust code can abort (chrono's panicking constructors and operators).
* chrono's `NaiveTime`, `NaiveDate`, `NaiveDateTime` are records of their calendar fields,
  with the validity ranges chrono enforces (`sec < 60`, leap seconds encoded as
  `1000 ≤ milli < 2000`, years in `-262144..=262143`).  `DateTime<FixedOffset>` stores its
  naive UTC datetime plus the offset in seconds, exactly as chrono does.
* Conversions between calendar dates and epoch-day counts use the standard civil-calendar
  algorithms, which agree with chrono's proleptic Gregorian calendar.
* Machine integers (`i32`, `i64`, `u32`, `u8`) become `Int`/`Nat`; none of the arithmetic
  in this code can overflow its Rust type (4-digit years, offsets below a day, 3-digit
  millisecond fields), so no wrap-around modelling is needed.
-/

/-- `Result<α, EntryParseError>` plus a `panic` case for aborts inside chrono calls.
`EntryParseError` is a unit struct, so `err` carries no data. -/
inductive RResult (α : Type) where
  | ok : α → RResult α
  | err : RResult α
  | panic : RResult α
deriving DecidableEq, Repr

/-- `Level` (system_log.rs): the nine syslog severities. -/
inductive Level where
  | Emergency | Alert | Critical | Error | Warning | Notice | Info | Debug | Repeated
deriving DecidableEq, Repr

/-- `Source<'a>` (system_log.rs): no source, a bare name, or `name[pid]`. -/
inductive Source where
  | None : Source
  | Name : List Char → Source
  | NameAndPid : List Char → Nat → Source
deriving DecidableEq, Repr

/-- chrono `NaiveTime`: hour/minute/second plus the millisecond fraction
(`1000 ≤ milli < 2000` is chrono's leap-second encoding). -/
structure NaiveTime where
  hour : Nat
  minute : Nat
  second : Nat
  milli : Nat
deriving DecidableEq, Repr

/-- chrono `NaiveDate` as its calendar fields. -/
structure NaiveDate where
  year : Int
  month : Nat
  day : Nat
deriving DecidableEq, Repr

/-- chrono `NaiveDateTime`: a date with a time of day. -/
structure NaiveDateTime where
  date : NaiveDate
  time : NaiveTime
deriving DecidableEq, Repr

/-- chrono `DateTime<FixedOffset>`: the naive datetime in UTC plus the offset
(`local_minus_utc`, in seconds), exactly chrono's internal representation. -/
structure DateTimeFixedOffset where
  datetime : NaiveDateTime
  offset : Int
deriving DecidableEq, Repr

/-- `DateTime::naive_utc` is the stored UTC datetime. -/
def DateTimeFixedOffset.naive_utc (dt : DateTimeFixedOffset) : NaiveDateTime :=
  dt.datetime

/-- `Timestamp` (system_log.rs). -/
inductive Timestamp where
  | Naive : NaiveDateTime → Timestamp
  | FixedOffset : DateTimeFixedOffset → Timestamp
deriving DecidableEq, Repr

/-- `RawTimestamp` (raw_timestamp.rs): either a year-less (month, day, time-of-day)
triple or an already complete datetime with offset. -/
inductive RawTimestamp where
  | Partial : Nat → Nat → NaiveTime → RawTimestamp
  | FixedOffset : DateTimeFixedOffset → RawTimestamp
deriving DecidableEq, Repr

/-- `Entry<'a>` (system_log.rs). -/
structure Entry where
  timestamp : Timestamp
  hostname : List Char
  level : Level
  source : Source
  message : List Char
deriving DecidableEq, Repr

/-- `RawEntry<'a>` (system_log.rs): like `Entry` but with an unresolved timestamp. -/
structure RawEntry where
  timestamp : RawTimestamp
  hostname : List Char
  level : Level
  source : Source
  message : List Char
deriving DecidableEq, Repr

/-! ## Calendar arithmetic (chrono's proleptic Gregorian calendar) -/

/-- Gregorian leap-year rule, as chrono computes it. -/
def isLeapYear (y : Int) : Bool :=
  (y % 4 == 0 && y % 100 != 0) || y % 400 == 0

/-- Days in a month of the proleptic Gregorian calendar (0 for out-of-range months). -/
def daysInMonth (y : Int) (m : Nat) : Nat :=
  match m with
  | 1 => 31
  | 2 => if isLeapYear y then 29 else 28
  | 3 => 31
  | 4 => 30
  | 5 => 31
  | 6 => 30
  | 7 => 31
  | 8 => 31
  | 9 => 30
  | 10 => 31
  | 11 => 30
  | 12 => 31
  | _ => 0

/-- Day-of-"March-based-year": 0 for March 1st, counting forward through February.
This is the `(153 * mp + 2) / 5` device of the standard civil-from-days algorithm. -/
def marchDoy (m d : Nat) : Int :=
  let mp : Nat := if 2 < m then m - 3 else m + 9
  ((153 * mp + 2) / 5 + d : Int) - 1

/-- Days from the Unix epoch (1970-01-01) to the civil date `y-m-d` in the proleptic
Gregorian calendar — the day count underlying chrono's `NaiveDate`.  This is the
standard `days_from_civil` algorithm: shift the year so it starts in March, count
365 days per year plus Gregorian leap days, then add the day of the shifted year. -/
def toDays (y : Int) (m d : Nat) : Int :=
  let ys : Int := if m ≤ 2 then y - 1 else y
  365 * ys + ys / 4 - ys / 100 + ys / 400 + marchDoy m d - 719468

/-- Inverse of `toDays`: the civil date `(y, m, d)` of a day count from the Unix epoch
(the standard civil-from-days algorithm). -/
def civilFromDays (z0 : Int) : Int × Nat × Nat :=
  let z := z0 + 719468
  let era := z / 146097
  let doe := (z - era * 146097).toNat
  let yoe := (doe - doe / 1460 + doe / 36524 - doe / 146096) / 365
  let doy := doe - (365 * yoe + yoe / 4 - yoe / 100)
  let mp := (5 * doy + 2) / 153
  let d := doy - (153 * mp + 2) / 5 + 1
  let m := if mp < 10 then mp + 3 else mp - 9
  (if m ≤ 2 then (yoe : Int) + era * 400 + 1 else (yoe : Int) + era * 400, m, d)

/-- Seconds of the day of a `NaiveTime`, as chrono's `num_seconds_from_midnight`
(the fractional part, leap milliseconds included, does not contribute). -/
def NaiveTime.secs (t : NaiveTime) : Int :=
  t.hour * 3600 + t.minute * 60 + t.second

/-- chrono `NaiveDateTime::timestamp`: seconds from the Unix epoch. -/
def NaiveDateTime.timestamp (dt : NaiveDateTime) : Int :=
  toDays dt.date.year dt.date.month dt.date.day * 86400 + dt.time.secs

/-- chrono `NaiveDate::from_ymd_opt`: `some` exactly for calendar-valid dates with the
year inside chrono's representable range `-262144..=262143`. -/
def NaiveDate.from_ymd_opt (y : Int) (m d : Nat) : Option NaiveDate :=
  if -262144 ≤ y ∧ y ≤ 262143 ∧ 1 ≤ m ∧ m ≤ 12 ∧ 1 ≤ d ∧ d ≤ daysInMonth y m then
    some ⟨y, m, d⟩
  else
    none

/-- chrono `NaiveTime::from_hms_milli_opt`: requires `hour < 24`, `min < 60`, `sec < 60`
and `milli < 2000` (milliseconds `1000..1999` encode a leap second).  In particular a
second value of `60` is rejected. -/
def NaiveTime.from_hms_milli_opt (hour minute second milli : Nat) : Option NaiveTime :=
  if hour < 24 ∧ minute < 60 ∧ second < 60 ∧ milli < 2000 then
    some ⟨hour, minute, second, milli⟩
  else
    none

/-- chrono `NaiveDate::and_hms_milli_opt`. -/
def NaiveDate.and_hms_milli_opt (d : NaiveDate) (hour minute second milli : Nat) :
    Option NaiveDateTime :=
  (NaiveTime.from_hms_milli_opt hour minute second milli).map (fun t => ⟨d, t⟩)

/-- chrono `FixedOffset::east`: `some` for `-86400 < secs < 86400`; outside that range
the Rust constructor panics, which callers below map to `RResult.panic`. -/
def FixedOffset_east (secs : Int) : Option Int :=
  if -86400 < secs ∧ secs < 86400 then some secs else none

/-- Subtracting whole seconds from a chrono `NaiveDateTime` (`checked_sub_signed` with a
seconds-only duration): arithmetic on the epoch-second count, keeping the millisecond
fraction; `none` when the result leaves chrono's representable year range. -/
def NaiveDateTime.checked_sub_seconds (dt : NaiveDateTime) (s : Int) : Option NaiveDateTime :=
  let t := dt.timestamp - s
  let days := t / 86400
  let sod := (t % 86400).toNat
  match civilFromDays days with
  | (y, m, d) =>
    if -262144 ≤ y ∧ y ≤ 262143 then
      some ⟨⟨y, m, d⟩, ⟨sod / 3600, sod % 3600 / 60, sod % 60, dt.time.milli⟩⟩
    else
      none

/-- chrono `FixedOffset::from_local_datetime(..).single()`: for a fixed offset the local
datetime maps to the single instant `local - offset`; the subtraction panics (here:
`none`, mapped to `RResult.panic` by the caller) only when it leaves the representable
range. -/
def from_local_datetime (offset : Int) (dt : NaiveDateTime) : Option DateTimeFixedOffset :=
  (dt.checked_sub_seconds offset).map (fun utc => ⟨utc, offset⟩)

/-- `with_year` (raw_timestamp.rs): attach a year to a partial (month, day, time-of-day). -/
def with_year (year : Int) (month day : Nat) (hms : NaiveTime) : Option NaiveDateTime :=
  (NaiveDate.from_ymd_opt year month day).map (fun d => ⟨d, hms⟩)

/-! ## Literal field parsers (raw_timestamp.rs) -/

/-- `parse_month_space` of raw_timestamp.rs: the literal table `"Jan " => 1`, ..., anything else errs. -/
def parse_month_space : List Char → RResult Nat
  | ['J', 'a', 'n', ' '] => .ok 1
  | ['F', 'e', 'b', ' '] => .ok 2
  | ['M', 'a', 'r', ' '] => .ok 3
  | ['A', 'p', 'r', ' '] => .ok 4
  | ['M', 'a', 'y', ' '] => .ok 5
  | ['J', 'u', 'n', ' '] => .ok 6
  | ['J', 'u', 'l', ' '] => .ok 7
  | ['A', 'u', 'g', ' '] => .ok 8
  | ['S', 'e', 'p', ' '] => .ok 9
  | ['O', 'c', 't', ' '] => .ok 10
  | ['N', 'o', 'v', ' '] => .ok 11
  | ['D', 'e', 'c', ' '] => .ok 12
  | _ => .err

/-- `parse_dash_month_dash` of raw_timestamp.rs: `"-01-" => 1`, ..., `"-12-" => 12`. -/
def parse_dash_month_dash : List Char → RResult Nat
  | ['-', '0', '1', '-'] => .ok 1
  | ['-', '0', '2', '-'] => .ok 2
  | ['-', '0', '3', '-'] => .ok 3
  | ['-', '0', '4', '-'] => .ok 4
  | ['-', '0', '5', '-'] => .ok 5
  | ['-', '0', '6', '-'] => .ok 6
  | ['-', '0', '7', '-'] => .ok 7
  | ['-', '0', '8', '-'] => .ok 8
  | ['-', '0', '9', '-'] => .ok 9
  | ['-', '1', '0', '-'] => .ok 10
  | ['-', '1', '1', '-'] => .ok 11
  | ['-', '1', '2', '-'] => .ok 12
  | _ => .err

/-- `parse_day_t` of raw_timestamp.rs: `"01T" => 1`, ..., `"31T" => 31`. -/
def parse_day_t : List Char → RResult Nat
  | ['0', '1', 'T'] => .ok 1
  | ['0', '2', 'T'] => .ok 2
  | ['0', '3', 'T'] => .ok 3
  | ['0', '4', 'T'] => .ok 4
  | ['0', '5', 'T'] => .ok 5
  | ['0', '6', 'T'] => .ok 6
  | ['0', '7', 'T'] => .ok 7
  | ['0', '8', 'T'] => .ok 8
  | ['0', '9', 'T'] => .ok 9
  | ['1', '0', 'T'] => .ok 10
  | ['1', '1', 'T'] => .ok 11
  | ['1', '2', 'T'] => .ok 12
  | ['1', '3', 'T'] => .ok 13
  | ['1', '4', 'T'] => .ok 14
  | ['1', '5', 'T'] => .ok 15
  | ['1', '6', 'T'] => .ok 16
  | ['1', '7', 'T'] => .ok 17
  | ['1', '8', 'T'] => .ok 18
  | ['1', '9', 'T'] => .ok 19
  | ['2', '0', 'T'] => .ok 20
  | ['2', '1', 'T'] => .ok 21
  | ['2', '2', 'T'] => .ok 22
  | ['2', '3', 'T'] => .ok 23
  | ['2', '4', 'T'] => .ok 24
  | ['2', '5', 'T'] => .ok 25
  | ['2', '6', 'T'] => .ok 26
  | ['2', '7', 'T'] => .ok 27
  | ['2', '8', 'T'] => .ok 28
  | ['2', '9', 'T'] => .ok 29
  | ['3', '0', 'T'] => .ok 30
  | ['3', '1', 'T'] => .ok 31
  | _ => .err

/-- `parse_day_space` of raw_timestamp.rs: `" 1 " => 1`, ..., `" 9 " => 9`, `"10 " => 10`,
..., `"31 " => 31`.  Single-digit days are left-padded with a space; the third character
is the following separator space.  A Rust string `match` is equality dispatch, modelled
as a chain of equality tests. -/
def parse_day_space (t : List Char) : RResult Nat :=
  if t = [' ', '1', ' '] then .ok 1
  else if t = [' ', '2', ' '] then .ok 2
  else if t = [' ', '3', ' '] then .ok 3
  else if t = [' ', '4', ' '] then .ok 4
  else if t = [' ', '5', ' '] then .ok 5
  else if t = [' ', '6', ' '] then .ok 6
  else if t = [' ', '7', ' '] then .ok 7
  else if t = [' ', '8', ' '] then .ok 8
  else if t = [' ', '9', ' '] then .ok 9
  else if t = ['1', '0', ' '] then .ok 10
  else if t = ['1', '1', ' '] then .ok 11
  else if t = ['1', '2', ' '] then .ok 12
  else if t = ['1', '3', ' '] then .ok 13
  else if t = ['1', '4', ' '] then .ok 14
  else if t = ['1', '5', ' '] then .ok 15
  else if t = ['1', '6', ' '] then .ok 16
  else if t = ['1', '7', ' '] then .ok 17
  else if t = ['1', '8', ' '] then .ok 18
  else if t = ['1', '9', ' '] then .ok 19
  else if t = ['2', '0', ' '] then .ok 20
  else if t = ['2', '1', ' '] then .ok 21
  else if t = ['2', '2', ' '] then .ok 22
  else if t = ['2', '3', ' '] then .ok 23
  else if t = ['2', '4', ' '] then .ok 24
  else if t = ['2', '5', ' '] then .ok 25
  else if t = ['2', '6', ' '] then .ok 26
  else if t = ['2', '7', ' '] then .ok 27
  else if t = ['2', '8', ' '] then .ok 28
  else if t = ['2', '9', ' '] then .ok 29
  else if t = ['3', '0', ' '] then .ok 30
  else if t = ['3', '1', ' '] then .ok 31
  else .err

/-- `parse_hour` of raw_timestamp.rs: `"00" => 0`, ..., `"23" => 23`. -/
def parse_hour : List Char → RResult Nat
  | ['0', '0'] => .ok 0
  | ['0', '1'] => .ok 1
  | ['0', '2'] => .ok 2
  | ['0', '3'] => .ok 3
  | ['0', '4'] => .ok 4
  | ['0', '5'] => .ok 5
  | ['0', '6'] => .ok 6
  | ['0', '7'] => .ok 7
  | ['0', '8'] => .ok 8
  | ['0', '9'] => .ok 9
  | ['1', '0'] => .ok 10
  | ['1', '1'] => .ok 11
  | ['1', '2'] => .ok 12
  | ['1', '3'] => .ok 13
  | ['1', '4'] => .ok 14
  | ['1', '5'] => .ok 15
  | ['1', '6'] => .ok 16
  | ['1', '7'] => .ok 17
  | ['1', '8'] => .ok 18
  | ['1', '9'] => .ok 19
  | ['2', '0'] => .ok 20
  | ['2', '1'] => .ok 21
  | ['2', '2'] => .ok 22
  | ['2', '3'] => .ok 23
  | _ => .err

/-- `parse_colon_minute` of raw_timestamp.rs: `":00" => 0`, ..., `":59" => 59`. -/
def parse_colon_minute : List Char → RResult Nat
  | [':', '0', '0'] => .ok 0
  | [':', '0', '1'] => .ok 1
  | [':', '0', '2'] => .ok 2
  | [':', '0', '3'] => .ok 3
  | [':', '0', '4'] => .ok 4
  | [':', '0', '5'] => .ok 5
  | [':', '0', '6'] => .ok 6
  | [':', '0', '7'] => .ok 7
  | [':', '0', '8'] => .ok 8
  | [':', '0', '9'] => .ok 9
  | [':', '1', '0'] => .ok 10
  | [':', '1', '1'] => .ok 11
  | [':', '1', '2'] => .ok 12
  | [':', '1', '3'] => .ok 13
  | [':', '1', '4'] => .ok 14
  | [':', '1', '5'] => .ok 15
  | [':', '1', '6'] => .ok 16
  | [':', '1', '7'] => .ok 17
  | [':', '1', '8'] => .ok 18
  | [':', '1', '9'] => .ok 19
  | [':', '2', '0'] => .ok 20
  | [':', '2', '1'] => .ok 21
  | [':', '2', '2'] => .ok 22
  | [':', '2', '3'] => .ok 23
  | [':', '2', '4'] => .ok 24
  | [':', '2', '5'] => .ok 25
  | [':', '2', '6'] => .ok 26
  | [':', '2', '7'] => .ok 27
  | [':', '2', '8'] => .ok 28
  | [':', '2', '9'] => .ok 29
  | [':', '3', '0'] => .ok 30
  | [':', '3', '1'] => .ok 31
  | [':', '3', '2'] => .ok 32
  | [':', '3', '3'] => .ok 33
  | [':', '3', '4'] => .ok 34
  | [':', '3', '5'] => .ok 35
  | [':', '3', '6'] => .ok 36
  | [':', '3', '7'] => .ok 37
  | [':', '3', '8'] => .ok 38
  | [':', '3', '9'] => .ok 39
  | [':', '4', '0'] => .ok 40
  | [':', '4', '1'] => .ok 41
  | [':', '4', '2'] => .ok 42
  | [':', '4', '3'] => .ok 43
  | [':', '4', '4'] => .ok 44
  | [':', '4', '5'] => .ok 45
  | [':', '4', '6'] => .ok 46
  | [':', '4', '7'] => .ok 47
  | [':', '4', '8'] => .ok 48
  | [':', '4', '9'] => .ok 49
  | [':', '5', '0'] => .ok 50
  | [':', '5', '1'] => .ok 51
  | [':', '5', '2'] => .ok 52
  | [':', '5', '3'] => .ok 53
  | [':', '5', '4'] => .ok 54
  | [':', '5', '5'] => .ok 55
  | [':', '5', '6'] => .ok 56
  | [':', '5', '7'] => .ok 57
  | [':', '5', '8'] => .ok 58
  | [':', '5', '9'] => .ok 59
  | _ => .err

/-- `parse_colon_second` of raw_timestamp.rs: `":00" => (0, 0)`, ..., `":59" => (59, 0)`, and
the leap-second arm `":60" => (60, 1000)`. -/
def parse_colon_second : List Char → RResult (Nat × Nat)
  | [':', '0', '0'] => .ok (0, 0)
  | [':', '0', '1'] => .ok (1, 0)
  | [':', '0', '2'] => .ok (2, 0)
  | [':', '0', '3'] => .ok (3, 0)
  | [':', '0', '4'] => .ok (4, 0)
  | [':', '0', '5'] => .ok (5, 0)
  | [':', '0', '6'] => .ok (6, 0)
  | [':', '0', '7'] => .ok (7, 0)
  | [':', '0', '8'] => .ok (8, 0)
  | [':', '0', '9'] => .ok (9, 0)
  | [':', '1', '0'] => .ok (10, 0)
  | [':', '1', '1'] => .ok (11, 0)
  | [':', '1', '2'] => .ok (12, 0)
  | [':', '1', '3'] => .ok (13, 0)
  | [':', '1', '4'] => .ok (14, 0)
  | [':', '1', '5'] => .ok (15, 0)
  | [':', '1', '6'] => .ok (16, 0)
  | [':', '1', '7'] => .ok (17, 0)
  | [':', '1', '8'] => .ok (18, 0)
  | [':', '1', '9'] => .ok (19, 0)
  | [':', '2', '0'] => .ok (20, 0)
  | [':', '2', '1'] => .ok (21, 0)
  | [':', '2', '2'] => .ok (22, 0)
  | [':', '2', '3'] => .ok (23, 0)
  | [':', '2', '4'] => .ok (24, 0)
  | [':', '2', '5'] => .ok (25, 0)
  | [':', '2', '6'] => .ok (26, 0)
  | [':', '2', '7'] => .ok (27, 0)
  | [':', '2', '8'] => .ok (28, 0)
  | [':', '2', '9'] => .ok (29, 0)
  | [':', '3', '0'] => .ok (30, 0)
  | [':', '3', '1'] => .ok (31, 0)
  | [':', '3', '2'] => .ok (32, 0)
  | [':', '3', '3'] => .ok (33, 0)
  | [':', '3', '4'] => .ok (34, 0)
  | [':', '3', '5'] => .ok (35, 0)
  | [':', '3', '6'] => .ok (36, 0)
  | [':', '3', '7'] => .ok (37, 0)
  | [':', '3', '8'] => .ok (38, 0)
  | [':', '3', '9'] => .ok (39, 0)
  | [':', '4', '0'] => .ok (40, 0)
  | [':', '4', '1'] => .ok (41, 0)
  | [':', '4', '2'] => .ok (42, 0)
  | [':', '4', '3'] => .ok (43, 0)
  | [':', '4', '4'] => .ok (44, 0)
  | [':', '4', '5'] => .ok (45, 0)
  | [':', '4', '6'] => .ok (46, 0)
  | [':', '4', '7'] => .ok (47, 0)
  | [':', '4', '8'] => .ok (48, 0)
  | [':', '4', '9'] => .ok (49, 0)
  | [':', '5', '0'] => .ok (50, 0)
  | [':', '5', '1'] => .ok (51, 0)
  | [':', '5', '2'] => .ok (52, 0)
  | [':', '5', '3'] => .ok (53, 0)
  | [':', '5', '4'] => .ok (54, 0)
  | [':', '5', '5'] => .ok (55, 0)
  | [':', '5', '6'] => .ok (56, 0)
  | [':', '5', '7'] => .ok (57, 0)
  | [':', '5', '8'] => .ok (58, 0)
  | [':', '5', '9'] => .ok (59, 0)
  | [':', '6', '0'] => .ok (60, 1000)
  | _ => .err

/-! ## Level vocabulary (system_log.rs) -/

/-- The legacy-format level table inlined in `RawEntry::parse_old` (system_log.rs):
the nine 11-byte tags `<EMERG   > `, ..., `<REPEATED> `.  A Rust string `match` is
equality dispatch, modelled as a chain of equality tests. -/
def parse_old_level (t : List Char) : Option Level :=
  if t = ['<', 'E', 'M', 'E', 'R', 'G', ' ', ' ', ' ', '>', ' '] then some Level.Emergency
  else if t = ['<', 'A', 'L', 'E', 'R', 'T', ' ', ' ', ' ', '>', ' '] then some Level.Alert
  else if t = ['<', 'C', 'R', 'I', 'T', 'I', 'C', 'A', 'L', '>', ' '] then some Level.Critical
  else if t = ['<', 'E', 'R', 'R', ' ', ' ', ' ', ' ', ' ', '>', ' '] then some Level.Error
  else if t = ['<', 'W', 'A', 'R', 'N', 'I', 'N', 'G', ' ', '>', ' '] then some Level.Warning
  else if t = ['<', 'N', 'O', 'T', 'I', 'C', 'E', ' ', ' ', '>', ' '] then some Level.Notice
  else if t = ['<', 'I', 'N', 'F', 'O', ' ', ' ', ' ', ' ', '>', ' '] then some Level.Info
  else if t = ['<', 'D', 'E', 'B', 'U', 'G', ' ', ' ', ' ', '>', ' '] then some Level.Debug
  else if t = ['<', 'R', 'E', 'P', 'E', 'A', 'T', 'E', 'D', '>', ' '] then some Level.Repeated
  else none

/-- The reverse direction of the legacy level table of `RawEntry::parse_old`:
the 11-byte legacy tag that parses to each `Level` (`Repeated` included). -/
def oldTagOfLevel : Level → List Char
  | Level.Emergency => ['<', 'E', 'M', 'E', 'R', 'G', ' ', ' ', ' ', '>', ' ']
  | Level.Alert => ['<', 'A', 'L', 'E', 'R', 'T', ' ', ' ', ' ', '>', ' ']
  | Level.Critical => ['<', 'C', 'R', 'I', 'T', 'I', 'C', 'A', 'L', '>', ' ']
  | Level.Error => ['<', 'E', 'R', 'R', ' ', ' ', ' ', ' ', ' ', '>', ' ']
  | Level.Warning => ['<', 'W', 'A', 'R', 'N', 'I', 'N', 'G', ' ', '>', ' ']
  | Level.Notice => ['<', 'N', 'O', 'T', 'I', 'C', 'E', ' ', ' ', '>', ' ']
  | Level.Info => ['<', 'I', 'N', 'F', 'O', ' ', ' ', ' ', ' ', '>', ' ']
  | Level.Debug => ['<', 'D', 'E', 'B', 'U', 'G', ' ', ' ', ' ', '>', ' ']
  | Level.Repeated => ['<', 'R', 'E', 'P', 'E', 'A', 'T', 'E', 'D', '>', ' ']

/-- The new-format level table inlined in `RawEntry::parse_new` (system_log.rs):
the eight 12-byte tags `[ EMERG   ] `, ..., `[ DEBUG   ] ` (no `REPEATED` arm),
again as an equality-dispatch chain. -/
def parse_new_level (t : List Char) : Option Level :=
  if t = ['[', ' ', 'E', 'M', 'E', 'R', 'G', ' ', ' ', ' ', ']', ' '] then some Level.Emergency
  else if t = ['[', ' ', 'A', 'L', 'E', 'R', 'T', ' ', ' ', ' ', ']', ' '] then some Level.Alert
  else if t = ['[', ' ', 'C', 'R', 'I', 'T', ' ', ' ', ' ', ' ', ']', ' '] then some Level.Critical
  else if t = ['[', ' ', 'E', 'R', 'R', ' ', ' ', ' ', ' ', ' ', ']', ' '] then some Level.Error
  else if t = ['[', ' ', 'W', 'A', 'R', 'N', 'I', 'N', 'G', ' ', ']', ' '] then some Level.Warning
  else if t = ['[', ' ', 'N', 'O', 'T', 'I', 'C', 'E', ' ', ' ', ']', ' '] then some Level.Notice
  else if t = ['[', ' ', 'I', 'N', 'F', 'O', ' ', ' ', ' ', ' ', ']', ' '] then some Level.Info
  else if t = ['[', ' ', 'D', 'E', 'B', 'U', 'G', ' ', ' ', ' ', ']', ' '] then some Level.Debug
  else none

/-- `Level::as_ref` (system_log.rs): the 11-byte bracketed tag string for each level. -/
def Level.as_ref : Level → List Char
  | Level.Emergency => ['[', ' ', 'E', 'M', 'E', 'R', 'G', ' ', ' ', ' ', ']']
  | Level.Alert => ['[', ' ', 'A', 'L', 'E', 'R', 'T', ' ', ' ', ' ', ']']
  | Level.Critical => ['[', ' ', 'C', 'R', 'I', 'T', ' ', ' ', ' ', ' ', ']']
  | Level.Error => ['[', ' ', 'E', 'R', 'R', ' ', ' ', ' ', ' ', ' ', ']']
  | Level.Warning => ['[', ' ', 'W', 'A', 'R', 'N', 'I', 'N', 'G', ' ', ']']
  | Level.Notice => ['[', ' ', 'N', 'O', 'T', 'I', 'C', 'E', ' ', ' ', ']']
  | Level.Info => ['[', ' ', 'I', 'N', 'F', 'O', ' ', ' ', ' ', ' ', ']']
  | Level.Debug => ['[', ' ', 'D', 'E', 'B', 'U', 'G', ' ', ' ', ' ', ']']
  | Level.Repeated => ['[', 'R', 'E', 'P', 'E', 'A', 'T', 'E', 'D', ' ', ']']

/-! ## Integer parsing (`FromStr` for `i32`/`u32`) -/

/-- The digits of a decimal numeral: `some` exactly for a non-empty all-digit string. -/
def digitsToNat : List Char → Option Nat
  | [] => none
  | [c] => if '0' ≤ c ∧ c ≤ '9' then some (c.toNat - 48) else none
  | c :: cs =>
    if '0' ≤ c ∧ c ≤ '9' then
      (digitsToNat cs).map (fun n => (c.toNat - 48) * 10 ^ cs.length + n)
    else
      none

/-- Rust `u32::from_str`: an optional `+` sign, then a non-empty digit string whose
value fits in a `u32`. -/
def u32_from_str (s : List Char) : Option Nat :=
  let digits := match s with
    | '+' :: rest => digitsToNat rest
    | _ => digitsToNat s
  digits.bind (fun n => if n ≤ 4294967295 then some n else none)

/-- Rust `i32::from_str`: an optional `+`/`-` sign, then a non-empty digit string whose
value fits in an `i32`. -/
def i32_from_str (s : List Char) : Option Int :=
  match s with
  | '+' :: rest => (digitsToNat rest).bind (fun n => if n ≤ 2147483647 then some (n : Int) else none)
  | '-' :: rest => (digitsToNat rest).bind (fun n => if n ≤ 2147483648 then some (-(n : Int)) else none)
  | _ => (digitsToNat s).bind (fun n => if n ≤ 2147483647 then some (n : Int) else none)

/-- `parse_year` (raw_timestamp.rs): `i32::from_str` with the error mapped to the
opaque parse error. -/
def parse_year (s : List Char) : RResult Int :=
  match i32_from_str s with
  | some n => .ok n
  | none => .err

/-! ## Offset parsing and the timestamp parsers (raw_timestamp.rs) -/

/-- `parse_offset` (raw_timestamp.rs): the literal `Z` maps to offset `0`; otherwise a
6-character `±HH:MM` field maps to `(neg * (hour * 60) + minute) * 60` — note the minute
term is added after the hour term is negated. -/
def parse_offset (s : List Char) : RResult Int :=
  if s = ['Z'] then .ok 0
  else if s.length = 6 then
    match s.take 1 with
    | ['-'] =>
      match parse_hour ((s.drop 1).take 2) with
      | .ok hour =>
        match parse_colon_minute (s.drop 3) with
        | .ok minute => .ok ((-1 * ((hour : Int) * 60) + (minute : Int)) * 60)
        | _ => .err
      | _ => .err
    | ['+'] =>
      match parse_hour ((s.drop 1).take 2) with
      | .ok hour =>
        match parse_colon_minute (s.drop 3) with
        | .ok minute => .ok ((1 * ((hour : Int) * 60) + (minute : Int)) * 60)
        | _ => .err
      | _ => .err
    | _ => .err
  else .err

/-- `RawTimestamp::parse_new` (raw_timestamp.rs): a 29-character
`YYYY-MM-DDTHH:MM:SS.mmm±HH:MM` token parsed field by field, then assembled through
chrono (`from_ymd_opt`, `and_hms_milli_opt`, `FixedOffset::east`,
`from_local_datetime(..).single()`), with `None` mapped to the parse error and the
panicking chrono calls mapped to `panic`. -/
def RawTimestamp.parse_new (timestamp : List Char) : RResult RawTimestamp :=
  if timestamp.length ≠ 29 then .err
  else
    match parse_year (timestamp.take 4) with
    | .err => .err
    | .panic => .panic
    | .ok year =>
    match parse_dash_month_dash ((timestamp.drop 4).take 4) with
    | .err => .err
    | .panic => .panic
    | .ok month =>
    match parse_day_t ((timestamp.drop 8).take 3) with
    | .err => .err
    | .panic => .panic
    | .ok day =>
    match parse_hour ((timestamp.drop 11).take 2) with
    | .err => .err
    | .panic => .panic
    | .ok hour =>
    match parse_colon_minute ((timestamp.drop 13).take 3) with
    | .err => .err
    | .panic => .panic
    | .ok minute =>
    match parse_colon_second ((timestamp.drop 16).take 3) with
    | .err => .err
    | .panic => .panic
    | .ok (second, millis0) =>
    if (timestamp.drop 19).take 1 ≠ ['.'] then .err
    else
      match u32_from_str ((timestamp.drop 20).take 3) with
      | none => .err
      | some frac =>
        let millis := millis0 + frac
        match parse_offset (timestamp.drop 23) with
        | .err => .err
        | .panic => .panic
        | .ok offset =>
          match (NaiveDate.from_ymd_opt year month day).bind
              (fun d => d.and_hms_milli_opt hour minute second millis) with
          | none => .err
          | some dt =>
            match FixedOffset_east offset with
            | none => .panic
            | some off =>
              match from_local_datetime off dt with
              | none => .panic
              | some dtfo => .ok (RawTimestamp.FixedOffset dtfo)

/-- `RawTimestamp::parse_old` (raw_timestamp.rs): a 15-character `Mon DD HH:MM:SS`
field parsed column by column; the final `NaiveTime::from_hms_milli` is the panicking
chrono constructor, so an invalid (hour, minute, second, milli) combination — reachable
through the `":60" => (60, 1000)` arm of `parse_colon_second` — is a `panic`, not an
`err`. -/
def RawTimestamp.parse_old (timestamp : List Char) : RResult RawTimestamp :=
  if timestamp.length ≠ 15 then .err
  else
    match parse_month_space (timestamp.take 4) with
    | .err => .err
    | .panic => .panic
    | .ok month =>
    match parse_day_space ((timestamp.drop 4).take 3) with
    | .err => .err
    | .panic => .panic
    | .ok day =>
    match parse_hour ((timestamp.drop 7).take 2) with
    | .err => .err
    | .panic => .panic
    | .ok hour =>
    match parse_colon_minute ((timestamp.drop 9).take 3) with
    | .err => .err
    | .panic => .panic
    | .ok minute =>
    match parse_colon_second ((timestamp.drop 12).take 3) with
    | .err => .err
    | .panic => .panic
    | .ok (second, millis) =>
      match NaiveTime.from_hms_milli_opt hour minute second millis with
      | some hms => .ok (RawTimestamp.Partial month day hms)
      | none => .panic

/-! ## Timestamp resolution (`RawTimestamp::into_timestamp`, raw_timestamp.rs) -/

/-- The reference point of `into_timestamp`: the successor's naive datetime when the
successor is a `Timestamp::Naive`, otherwise `now.naive_utc()`. -/
def referenceOf (succ : Option Timestamp) (now : DateTimeFixedOffset) : NaiveDateTime :=
  match succ with
  | some (Timestamp.Naive later) => later
  | _ => now.naive_utc

/-- The sort key of the fallback path: `(dt.timestamp() - reference_timestamp).abs()`. -/
def sortKey (referenceTimestamp : Int) (dt : NaiveDateTime) : Nat :=
  (dt.timestamp - referenceTimestamp).natAbs

/-- The candidate list `options` of the fallback path, in construction order:
the current year, then the previous year, then the next year, each kept only when
`with_year` produces a valid date. -/
def fallbackOptions (y : Int) (m d : Nat) (hms : NaiveTime) : List NaiveDateTime :=
  (with_year y m d hms).toList ++ (with_year (y - 1) m d hms).toList
    ++ (with_year (y + 1) m d hms).toList

/-- Stable insertion of an element into a sorted list of elements that followed it in
the original list: it passes only elements with strictly smaller keys, landing before
every element of equal key — so equal-key elements keep their original relative order,
matching the stability guarantee of Rust's `sort_by_key`. -/
def insertByKey (key : NaiveDateTime → Nat) (a : NaiveDateTime) :
    List NaiveDateTime → List NaiveDateTime
  | [] => [a]
  | b :: bs => if key b < key a then b :: insertByKey key a bs else a :: b :: bs

/-- Stable sort by key (insertion sort), modelling `Vec::sort_by_key`. -/
def sortByKey (key : NaiveDateTime → Nat) : List NaiveDateTime → List NaiveDateTime
  | [] => []
  | a :: rest => insertByKey key a (sortByKey key rest)

/-- The fallback path of `into_timestamp`: sort the candidates by distance to the
reference and pick the first; `EntryParseError` when no candidate is valid. -/
def cookFallback (reference : NaiveDateTime) (m d : Nat) (hms : NaiveTime) :
    RResult Timestamp :=
  match (sortByKey (sortKey reference.timestamp)
      (fallbackOptions reference.date.year m d hms)).head? with
  | some ts => .ok (Timestamp.Naive ts)
  | none => .err

/-- `RawTimestamp::into_timestamp` (raw_timestamp.rs): a `FixedOffset` raw timestamp is
returned unchanged; a `Partial` one is resolved against the reference — fast path when
the current-year candidate is within 180 days, otherwise the sorted three-year fallback. -/
def RawTimestamp.into_timestamp (t : RawTimestamp) (succ : Option Timestamp)
    (now : DateTimeFixedOffset) : RResult Timestamp :=
  match t with
  | RawTimestamp.FixedOffset dt => .ok (Timestamp.FixedOffset dt)
  | RawTimestamp.Partial m d hms =>
    let reference := referenceOf succ now
    match with_year reference.date.year m d hms with
    | some ts =>
      if (ts.timestamp - reference.timestamp).natAbs < 180 * 86400 then
        .ok (Timestamp.Naive ts)
      else
        cookFallback reference m d hms
    | none => cookFallback reference m d hms

/-! ## Source and tail parsing (system_log.rs) -/

/-- Rust `str::find` for a single character: index of its first occurrence. -/
def findCharIdx (c : Char) : List Char → Option Nat
  | [] => none
  | x :: xs => if x = c then some 0 else (findCharIdx c xs).map (· + 1)

/-- Rust `str::find` for a two-character pattern such as `": "`: index of the first
occurrence of the pattern as a contiguous substring. -/
def findSubstr (pat : List Char) : List Char → Option Nat
  | [] => if List.isPrefixOf pat [] then some 0 else none
  | c :: cs =>
    if List.isPrefixOf pat (c :: cs) then some 0
    else (findSubstr pat cs).map (· + 1)

/-- `Source::from_str` (system_log.rs): if the string contains a `[` and ends with `]`,
the text before the first `[` is the name and the bracketed text must parse as a `u32`
pid; otherwise any non-empty string is a bare name and the empty string is an error
(`none`). -/
def Source.from_str (s : List Char) : Option Source :=
  match findCharIdx '[' s with
  | some start =>
    if (List.isSuffixOf [']'] s) = true then
      let name := s.take start
      let pid := (s.drop (start + 1)).dropLast
      match u32_from_str pid with
      | some pid => some (Source.NameAndPid name pid)
      | none => none
    else if s ≠ [] then some (Source.Name s) else none
  | none => if s ≠ [] then some (Source.Name s) else none

/-- `parse_rest` (system_log.rs): split the tail at the first `": "` into
(source, message) when the prefix parses as a `Source`; otherwise the whole tail is the
message with no source.  Always succeeds. -/
def parse_rest (rest : List Char) : RResult (Source × List Char) :=
  match findSubstr [':', ' '] rest with
  | some i =>
    let source := rest.take i
    let message := rest.drop i
    match Source.from_str source with
    | some src => .ok (src, message.drop 2)
    | none => .ok (Source.None, rest)
  | none => .ok (Source.None, rest)

/-! ## Entry parsing (system_log.rs) -/

/-- Rust `Result::and_then`: `ok` feeds the continuation, `err` short-circuits, and a
panic propagates. -/
def RResult.bind {α β : Type} (x : RResult α) (f : α → RResult β) : RResult β :=
  match x with
  | .ok a => f a
  | .err => .err
  | .panic => .panic

/-- One step of `splitn(_, ' ')`: split at the first space, `none` when there is none. -/
def splitOnce (sep : Char) : List Char → Option (List Char × List Char)
  | [] => none
  | c :: cs =>
    if c = sep then some ([], cs)
    else (splitOnce sep cs).map (fun p => (c :: p.1, p.2))

/-- Rust `s.splitn(3, ' ')` consumed by three `next()` calls: the first two
space-separated tokens and the remainder; `none` when the line has fewer than two
spaces (some `next()` returned `None`). -/
def splitn3 (s : List Char) : Option (List Char × List Char × List Char) :=
  match splitOnce ' ' s with
  | none => none
  | some (t1, rest) =>
    match splitOnce ' ' rest with
    | none => none
    | some (t2, rest2) => some (t1, t2, rest2)

/-- `RawEntry::parse_old` (system_log.rs): fixed columns — 11-byte level tag,
15-byte timestamp, one separator space, then hostname up to the next space and the
tail.  The checks happen in source order: length, separator space, level tag,
timestamp, hostname split, tail split. -/
def RawEntry.parse_old (s : List Char) : RResult RawEntry :=
  if s.length < 30 then .err
  else
    let level := s.take 11
    let timestamp := (s.drop 11).take 15
    let rest := s.drop 27
    if (s.drop 26).take 1 ≠ [' '] then .err
    else
      match parse_old_level level with
      | none => .err
      | some lvl =>
        match RawTimestamp.parse_old timestamp with
        | .err => .err
        | .panic => .panic
        | .ok ts =>
          match findCharIdx ' ' rest with
          | none => .err
          | some i =>
            let hostname := rest.take i
            let rest2 := (rest.drop i).drop 1
            match parse_rest rest2 with
            | .ok (src, msg) => .ok ⟨ts, hostname, lvl, src, msg⟩
            | .err => .err
            | .panic => .panic

/-- `RawEntry::parse_new` (system_log.rs): three space-separated tokens
(timestamp, hostname, remainder); the remainder must be at least 13 bytes, its first
12 bytes a recognized level tag, and the rest of it is tail split by `parse_rest`. -/
def RawEntry.parse_new (s : List Char) : RResult RawEntry :=
  match splitn3 s with
  | none => .err
  | some (t1, t2, rest) =>
    match RawTimestamp.parse_new t1 with
    | .err => .err
    | .panic => .panic
    | .ok ts =>
      if rest.length < 13 then .err
      else
        match parse_new_level (rest.take 12) with
        | none => .err
        | some lvl =>
          match parse_rest (rest.drop 12) with
          | .ok (src, msg) => .ok ⟨ts, t2, lvl, src, msg⟩
          | .err => .err
          | .panic => .panic

/-- `RawEntry::parse` (system_log.rs): try the legacy format, then the new format.
`or_else` only applies to `Err`; a panic inside `parse_old` propagates. -/
def RawEntry.parse (s : List Char) : RResult RawEntry :=
  match RawEntry.parse_old s with
  | .ok e => .ok e
  | .panic => .panic
  | .err => RawEntry.parse_new s

/-- `RawEntry::cook` (system_log.rs): resolve the raw timestamp, keep the other fields. -/
def RawEntry.cook (r : RawEntry) (succ : Option Timestamp) (now : DateTimeFixedOffset) :
    RResult Entry :=
  match r.timestamp.into_timestamp succ now with
  | .ok ts => .ok ⟨ts, r.hostname, r.level, r.source, r.message⟩
  | .err => .err
  | .panic => .panic

/-! ## The entry stream (`EntriesIter`, system_log.rs) -/

/-- The line preprocessing of `EntriesIter::next`: trim one trailing `\r`, then skip
(`none`) empty lines and `----- ... -----` separator lines. -/
def stepLine (line : List Char) : Option (List Char) :=
  let line := if line.getLast? = some '\r' then line.dropLast else line
  if line = [] then none
  else if List.isPrefixOf "----- ".toList line ∧ List.isSuffixOf " -----".toList line then none
  else some line

/-- The state of an `EntriesIter`: the not-yet-visited lines (most recent first, as
produced by `rsplit('\n')`), the last successfully resolved timestamp, and the
`generated_at` reference instant. -/
structure IterState where
  remaining : List (List Char)
  succ : Option Timestamp
  now : DateTimeFixedOffset
deriving DecidableEq, Repr

/-- The loop body of `EntriesIter::next`, recursing over the pending lines: skipped
lines continue the loop; a parsed-and-cooked line yields its result, updating the
successor timestamp only on success. -/
def nextAux (now : DateTimeFixedOffset) :
    List (List Char) → Option Timestamp → Option (RResult Entry × IterState)
  | [], _ => none
  | line :: rest, succ =>
    match stepLine line with
    | none => nextAux now rest succ
    | some l =>
      match (RawEntry.parse l).bind (fun raw => raw.cook succ now) with
      | .ok e => some (.ok e, ⟨rest, some e.timestamp, now⟩)
      | .err => some (.err, ⟨rest, succ, now⟩)
      | .panic => some (.panic, ⟨rest, succ, now⟩)

/-- `EntriesIter::next` (system_log.rs). -/
def EntriesIter.next (st : IterState) : Option (RResult Entry × IterState) :=
  nextAux st.now st.remaining st.succ

/-- Splitting a buffer at every occurrence of a separator character
(Rust `str::split`, in forward order). -/
def splitChar (sep : Char) : List Char → List (List Char)
  | [] => [[]]
  | c :: cs =>
    match splitChar sep cs with
    | [] => [[]]
    | r :: rs => if c = sep then [] :: r :: rs else (c :: r) :: rs

/-- `Entries::iter` (system_log.rs): start the stream on `rsplit('\n')` — the buffer's
lines from last to first — with no successor timestamp. -/
def Entries.iter (buffer : List Char) (generated_at : DateTimeFixedOffset) : IterState :=
  ⟨(splitChar '\n' buffer).reverse, none, generated_at⟩

/-! ## Helper lemmas -/

/-- Validation of the day arithmetic at the Unix epoch. -/
example : toDays 1970 1 1 = 0 ∧ civilFromDays 0 = (1970, 1, 1) := by decide

/-- Validation of the day arithmetic across a leap day. -/
example : civilFromDays (toDays 2000 2 29) = (2000, 2, 29) ∧ toDays 2000 3 1 - toDays 2000 2 29 = 1 := by
  decide

/-- Moving the same (month, day) one calendar year later adds 365 or 366 days. -/
theorem toDays_succ (y : Int) (m d : Nat) :
    365 ≤ toDays (y + 1) m d - toDays y m d ∧ toDays (y + 1) m d - toDays y m d ≤ 366 := by
  simp only [toDays]
  by_cases hm : m ≤ 2 <;> simp only [hm, if_true, if_false] <;> omega

theorem from_ymd_opt_inv {y : Int} {m d : Nat} {dd : NaiveDate}
    (h : NaiveDate.from_ymd_opt y m d = some dd) : dd = ⟨y, m, d⟩ := by
  unfold NaiveDate.from_ymd_opt at h
  split at h
  · injection h with h; exact h.symm
  · cases h

theorem with_year_inv {y : Int} {m d : Nat} {hms : NaiveTime} {ts : NaiveDateTime}
    (h : with_year y m d hms = some ts) : ts = ⟨⟨y, m, d⟩, hms⟩ := by
  unfold with_year at h
  cases hf : NaiveDate.from_ymd_opt y m d with
  | none => rw [hf] at h; cases h
  | some dd =>
    rw [hf] at h
    simp only [Option.map_some'] at h
    injection h with h
    rw [from_ymd_opt_inv hf] at h
    exact h.symm

/-- The same (month, day, time-of-day) placed in consecutive years differs by
365 or 366 days' worth of seconds. -/
theorem with_year_step (y : Int) (m d : Nat) (hms : NaiveTime) (ts ts' : NaiveDateTime)
    (h1 : with_year y m d hms = some ts) (h2 : with_year (y + 1) m d hms = some ts') :
    365 * 86400 ≤ ts'.timestamp - ts.timestamp ∧ ts'.timestamp - ts.timestamp ≤ 366 * 86400 := by
  rw [with_year_inv h1, with_year_inv h2]
  simp only [NaiveDateTime.timestamp]
  have := toDays_succ y m d
  omega

theorem mem_insertByKey {key : NaiveDateTime → Nat} {a x : NaiveDateTime}
    {l : List NaiveDateTime} (h : x ∈ insertByKey key a l) : x = a ∨ x ∈ l := by
  induction l with
  | nil =>
    simp only [insertByKey, List.mem_singleton] at h
    exact Or.inl h
  | cons b bs ih =>
    unfold insertByKey at h
    split at h
    · rcases List.mem_cons.mp h with h | h
      · right; exact List.mem_cons.mpr (Or.inl h)
      · rcases ih h with h | h
        · left; exact h
        · right; exact List.mem_cons.mpr (Or.inr h)
    · rcases List.mem_cons.mp h with h | h
      · left; exact h
      · right; exact h

theorem mem_sortByKey {key : NaiveDateTime → Nat} {x : NaiveDateTime}
    {l : List NaiveDateTime} (h : x ∈ sortByKey key l) : x ∈ l := by
  induction l with
  | nil =>
    simp only [sortByKey] at h
    exact h
  | cons a as ih =>
    unfold sortByKey at h
    rcases mem_insertByKey h with h | h
    · simp [h]
    · exact List.mem_cons.mpr (Or.inr (ih h))

/-- Stable sort puts an element with a strictly smallest key at the head. -/
theorem sortByKey_cons_head {key : NaiveDateTime → Nat} {a : NaiveDateTime}
    {l : List NaiveDateTime} (h : ∀ x ∈ l, key a < key x) :
    (sortByKey key (a :: l)).head? = some a := by
  unfold sortByKey
  cases hs : sortByKey key l with
  | nil => rfl
  | cons b bs =>
    have hb : b ∈ l := mem_sortByKey (by rw [hs]; exact List.mem_cons_self b bs)
    have hab := h b hb
    unfold insertByKey
    rw [if_neg (by omega)]
    rfl

/-- Inversion of the `Partial` branch of `into_timestamp`: every successful resolution
is a `Naive` timestamp produced by `with_year` at the reference year or one of its two
neighbours. -/
theorem into_timestamp_partial_inv {m d : Nat} {hms : NaiveTime} {succ : Option Timestamp}
    {now : DateTimeFixedOffset} {T : Timestamp}
    (h : RawTimestamp.into_timestamp (RawTimestamp.Partial m d hms) succ now = .ok T) :
    ∃ ts : NaiveDateTime, T = Timestamp.Naive ts ∧
      ts ∈ fallbackOptions (referenceOf succ now).date.year m d hms := by
  have fallback : ∀ T' : Timestamp,
      cookFallback (referenceOf succ now) m d hms = .ok T' →
      ∃ ts : NaiveDateTime, T' = Timestamp.Naive ts ∧
        ts ∈ fallbackOptions (referenceOf succ now).date.year m d hms := by
    intro T' h'
    unfold cookFallback at h'
    cases hl : sortByKey (sortKey (referenceOf succ now).timestamp)
        (fallbackOptions (referenceOf succ now).date.year m d hms) with
    | nil => rw [hl] at h'; cases h'
    | cons c cs =>
      rw [hl] at h'
      simp only [List.head?_cons] at h'
      injection h' with h'
      exact ⟨c, h'.symm, mem_sortByKey (by rw [hl]; exact List.mem_cons_self c cs)⟩
  simp only [RawTimestamp.into_timestamp] at h
  cases hw : with_year (referenceOf succ now).date.year m d hms with
  | none => simp only [hw] at h; exact fallback T h
  | some ts =>
    simp only [hw] at h
    split at h
    · injection h with h
      refine ⟨ts, h.symm, ?_⟩
      simp [fallbackOptions, hw]
    · exact fallback T h

/-! ## Claim theorems -/

/-- Claim C1: whenever the current-year candidate of a partial timestamp exists and is
within 180 days of the reference, the fast path returns it, and it is also exactly the
candidate that the fallback's stable sort over the {previous, current, next}-year
candidates would put first. -/
theorem claim_C1_fast_path_agrees_with_fallback (m d : Nat) (hms : NaiveTime)
    (succ : Option Timestamp) (now : DateTimeFixedOffset) (ts : NaiveDateTime)
    (hcur : with_year (referenceOf succ now).date.year m d hms = some ts)
    (hnear : (ts.timestamp - (referenceOf succ now).timestamp).natAbs < 180 * 86400) :
    RawTimestamp.into_timestamp (RawTimestamp.Partial m d hms) succ now
        = .ok (Timestamp.Naive ts)
    ∧ (sortByKey (sortKey (referenceOf succ now).timestamp)
        (fallbackOptions (referenceOf succ now).date.year m d hms)).head? = some ts := by
  have hopts : fallbackOptions (referenceOf succ now).date.year m d hms
      = ts :: ((with_year ((referenceOf succ now).date.year - 1) m d hms).toList
        ++ (with_year ((referenceOf succ now).date.year + 1) m d hms).toList) := by
    unfold fallbackOptions
    rw [hcur]
    simp
  have hstrict : ∀ x ∈ (with_year ((referenceOf succ now).date.year - 1) m d hms).toList
      ++ (with_year ((referenceOf succ now).date.year + 1) m d hms).toList,
      sortKey (referenceOf succ now).timestamp ts < sortKey (referenceOf succ now).timestamp x := by
    intro x hx
    rcases List.mem_append.mp hx with hx | hx
    · rw [Option.mem_toList, Option.mem_def] at hx
      have hcur' : with_year ((referenceOf succ now).date.year - 1 + 1) m d hms = some ts := by
        rw [show (referenceOf succ now).date.year - 1 + 1 = (referenceOf succ now).date.year
          by ring]
        exact hcur
      have hstep := with_year_step _ _ _ _ _ _ hx hcur'
      simp only [sortKey]
      omega
    · rw [Option.mem_toList, Option.mem_def] at hx
      have hstep := with_year_step _ _ _ _ _ _ hcur hx
      simp only [sortKey]
      omega
  refine ⟨?_, ?_⟩
  · simp only [RawTimestamp.into_timestamp, hcur]
    rw [if_pos hnear]
  · rw [hopts]
    exact sortByKey_cons_head hstrict

/-- Witness for C1 at a concrete input: partial `Oct 9 12:00:00` with a `Naive`
successor on 2020-10-09 12:00:00. -/
theorem claim_C1_witness :
    RawTimestamp.into_timestamp (RawTimestamp.Partial 10 9 ⟨12, 0, 0, 0⟩)
        (some (Timestamp.Naive ⟨⟨2020, 10, 9⟩, ⟨12, 0, 0, 0⟩⟩))
        ⟨⟨⟨2020, 1, 1⟩, ⟨0, 0, 0, 0⟩⟩, 0⟩
      = .ok (Timestamp.Naive ⟨⟨2020, 10, 9⟩, ⟨12, 0, 0, 0⟩⟩)
    ∧ (sortByKey
        (sortKey (referenceOf (some (Timestamp.Naive ⟨⟨2020, 10, 9⟩, ⟨12, 0, 0, 0⟩⟩))
          ⟨⟨⟨2020, 1, 1⟩, ⟨0, 0, 0, 0⟩⟩, 0⟩).timestamp)
        (fallbackOptions 2020 10 9 ⟨12, 0, 0, 0⟩)).head?
      = some ⟨⟨2020, 10, 9⟩, ⟨12, 0, 0, 0⟩⟩ :=
  claim_C1_fast_path_agrees_with_fallback 10 9 ⟨12, 0, 0, 0⟩
    (some (Timestamp.Naive ⟨⟨2020, 10, 9⟩, ⟨12, 0, 0, 0⟩⟩))
    ⟨⟨⟨2020, 1, 1⟩, ⟨0, 0, 0, 0⟩⟩, 0⟩ ⟨⟨2020, 10, 9⟩, ⟨12, 0, 0, 0⟩⟩
    (by decide) (by decide)

/-- Claim C5: every successful resolution of a partial timestamp yields a naive
timestamp whose year is the reference year or one of its two neighbours, where the
reference is the successor's naive datetime when the successor is `Naive` and the
generation instant otherwise. -/
theorem claim_C5_resolved_year_window (m d : Nat) (hms : NaiveTime)
    (succ : Option Timestamp) (now : DateTimeFixedOffset) (T : Timestamp)
    (h : RawTimestamp.into_timestamp (RawTimestamp.Partial m d hms) succ now = .ok T) :
    ∃ ts : NaiveDateTime, T = Timestamp.Naive ts ∧
      (ts.date.year = (referenceOf succ now).date.year - 1
        ∨ ts.date.year = (referenceOf succ now).date.year
        ∨ ts.date.year = (referenceOf succ now).date.year + 1) := by
  obtain ⟨ts, rfl, hmem⟩ := into_timestamp_partial_inv h
  refine ⟨ts, rfl, ?_⟩
  simp only [fallbackOptions, List.mem_append, Option.mem_toList, Option.mem_def] at hmem
  rcases hmem with (h' | h') | h'
  · right; left; rw [with_year_inv h']
  · left; rw [with_year_inv h']
  · right; right; rw [with_year_inv h']

/-- Witness for C5: a partial `Mar 1 06:00:00` resolved against a `Naive` successor on
2021-01-01 resolves into year 2021. -/
theorem claim_C5_witness :
    ∃ ts : NaiveDateTime,
      (Timestamp.Naive ⟨⟨2021, 3, 1⟩, ⟨6, 0, 0, 0⟩⟩ : Timestamp) = Timestamp.Naive ts ∧
      (ts.date.year = (referenceOf (some (Timestamp.Naive ⟨⟨2021, 1, 1⟩, ⟨0, 0, 0, 0⟩⟩))
          ⟨⟨⟨2020, 1, 1⟩, ⟨0, 0, 0, 0⟩⟩, 0⟩).date.year - 1
        ∨ ts.date.year = (referenceOf (some (Timestamp.Naive ⟨⟨2021, 1, 1⟩, ⟨0, 0, 0, 0⟩⟩))
          ⟨⟨⟨2020, 1, 1⟩, ⟨0, 0, 0, 0⟩⟩, 0⟩).date.year
        ∨ ts.date.year = (referenceOf (some (Timestamp.Naive ⟨⟨2021, 1, 1⟩, ⟨0, 0, 0, 0⟩⟩))
          ⟨⟨⟨2020, 1, 1⟩, ⟨0, 0, 0, 0⟩⟩, 0⟩).date.year + 1) :=
  claim_C5_resolved_year_window 3 1 ⟨6, 0, 0, 0⟩
    (some (Timestamp.Naive ⟨⟨2021, 1, 1⟩, ⟨0, 0, 0, 0⟩⟩))
    ⟨⟨⟨2020, 1, 1⟩, ⟨0, 0, 0, 0⟩⟩, 0⟩
    (Timestamp.Naive ⟨⟨2021, 3, 1⟩, ⟨6, 0, 0, 0⟩⟩) (by decide)

/-- Claim C9: resolution of a partial timestamp never alters its month, day or
time-of-day — only the year is chosen. -/
theorem claim_C9_resolution_preserves_fields (m d : Nat) (hms : NaiveTime)
    (succ : Option Timestamp) (now : DateTimeFixedOffset) (T : Timestamp)
    (h : RawTimestamp.into_timestamp (RawTimestamp.Partial m d hms) succ now = .ok T) :
    ∃ ts : NaiveDateTime, T = Timestamp.Naive ts ∧
      ts.date.month = m ∧ ts.date.day = d ∧ ts.time = hms := by
  obtain ⟨ts, rfl, hmem⟩ := into_timestamp_partial_inv h
  refine ⟨ts, rfl, ?_⟩
  simp only [fallbackOptions, List.mem_append, Option.mem_toList, Option.mem_def] at hmem
  rcases hmem with (h' | h') | h' <;> rw [with_year_inv h'] <;> exact ⟨rfl, rfl, rfl⟩

/-- Witness for C9: the partial `Dec 31 23:59:59` resolved against a `Naive` successor
on 2021-01-01 keeps month 12, day 31 and its time of day. -/
theorem claim_C9_witness :
    ∃ ts : NaiveDateTime,
      (Timestamp.Naive ⟨⟨2020, 12, 31⟩, ⟨23, 59, 59, 0⟩⟩ : Timestamp) = Timestamp.Naive ts ∧
      ts.date.month = 12 ∧ ts.date.day = 31 ∧ ts.time = ⟨23, 59, 59, 0⟩ :=
  claim_C9_resolution_preserves_fields 12 31 ⟨23, 59, 59, 0⟩
    (some (Timestamp.Naive ⟨⟨2021, 1, 1⟩, ⟨0, 0, 0, 0⟩⟩))
    ⟨⟨⟨2020, 1, 1⟩, ⟨0, 0, 0, 0⟩⟩, 0⟩
    (Timestamp.Naive ⟨⟨2020, 12, 31⟩, ⟨23, 59, 59, 0⟩⟩) (by decide)

/-- State handling of the `EntriesIter` loop body: an error step keeps the successor
timestamp, a successful step replaces it with the new entry's timestamp. -/
theorem nextAux_state (now : DateTimeFixedOffset) (lines : List (List Char))
    (succ : Option Timestamp) (r : RResult Entry) (st' : IterState)
    (h : nextAux now lines succ = some (r, st')) :
    (r = RResult.err → st'.succ = succ)
    ∧ (∀ e : Entry, r = RResult.ok e → st'.succ = some e.timestamp) := by
  induction lines with
  | nil => simp only [nextAux] at h; cases h
  | cons line rest ih =>
    unfold nextAux at h
    cases hs : stepLine line with
    | none =>
      simp only [hs] at h
      exact ih h
    | some l =>
      simp only [hs] at h
      cases hr : (RawEntry.parse l).bind (fun raw => raw.cook succ now) with
      | ok e =>
        simp only [hr] at h
        injection h with h
        injection h with h1 h2
        subst h1
        subst h2
        constructor
        · intro hc; cases hc
        · intro e' he'
          injection he' with he'
          subst he'
          rfl
      | err =>
        simp only [hr] at h
        injection h with h
        injection h with h1 h2
        subst h1
        subst h2
        constructor
        · intro _; rfl
        · intro e' he'; cases he'
      | panic =>
        simp only [hr] at h
        injection h with h
        injection h with h1 h2
        subst h1
        subst h2
        constructor
        · intro hc; cases hc
        · intro e' he'; cases he'

/-- Claim C6: every step of the entry stream that yields an error leaves the
successor-timestamp state unchanged, and every step that yields an entry sets the
state to that entry's resolved timestamp. -/
theorem claim_C6_stream_state (st : IterState) (r : RResult Entry) (st' : IterState)
    (h : EntriesIter.next st = some (r, st')) :
    (r = RResult.err → st'.succ = st.succ)
    ∧ (∀ e : Entry, r = RResult.ok e → st'.succ = some e.timestamp) :=
  nextAux_state st.now st.remaining st.succ r st' h

/-- Witness for C6: an unparsable line yields an error step that keeps the (empty)
successor state. -/
theorem claim_C6_witness :
    ((RResult.err : RResult Entry) = RResult.err →
      (⟨[], none, ⟨⟨⟨2020, 1, 1⟩, ⟨0, 0, 0, 0⟩⟩, 0⟩⟩ : IterState).succ
        = (⟨["garbage".toList], none, ⟨⟨⟨2020, 1, 1⟩, ⟨0, 0, 0, 0⟩⟩, 0⟩⟩ : IterState).succ)
    ∧ (∀ e : Entry, (RResult.err : RResult Entry) = RResult.ok e →
      (⟨[], none, ⟨⟨⟨2020, 1, 1⟩, ⟨0, 0, 0, 0⟩⟩, 0⟩⟩ : IterState).succ = some e.timestamp) :=
  claim_C6_stream_state ⟨["garbage".toList], none, ⟨⟨⟨2020, 1, 1⟩, ⟨0, 0, 0, 0⟩⟩, 0⟩⟩
    RResult.err ⟨[], none, ⟨⟨⟨2020, 1, 1⟩, ⟨0, 0, 0, 0⟩⟩, 0⟩⟩ (by decide)

/-- Claim C10: for a 6-character offset field the parsed offset is
`(sign * (60 * HH) + MM) * 60` — the minutes component is added after the hour
component is negated, so a `-` sign applies only to the hours. -/
theorem claim_C10_offset_arithmetic (s : List Char) (hr mn : Nat)
    (hlen : s.length = 6)
    (hh : parse_hour ((s.drop 1).take 2) = .ok hr)
    (hm : parse_colon_minute (s.drop 3) = .ok mn) :
    (s.take 1 = ['-'] → parse_offset s = .ok ((-1 * ((hr : Int) * 60) + (mn : Int)) * 60))
    ∧ (s.take 1 = ['+'] → parse_offset s = .ok ((1 * ((hr : Int) * 60) + (mn : Int)) * 60)) := by
  have hz : s ≠ ['Z'] := by
    intro he
    rw [he] at hlen
    cases hlen
  constructor <;> intro hsign <;>
    simp only [parse_offset, if_neg hz, hlen, if_true, hsign, hh, hm, reduceIte]

/-- Witness for C10 at the offset field `-05:30`: the parsed offset is `-16200` seconds,
i.e. minus 4 hours 30 minutes. -/
theorem claim_C10_witness :
    ("-05:30".toList.take 1 = ['-'] →
      parse_offset "-05:30".toList = .ok ((-1 * ((5 : Int) * 60) + (30 : Int)) * 60))
    ∧ ("-05:30".toList.take 1 = ['+'] →
      parse_offset "-05:30".toList = .ok ((1 * ((5 : Int) * 60) + (30 : Int)) * 60)) :=
  claim_C10_offset_arithmetic "-05:30".toList 5 30 (by decide) (by decide) (by decide)

/-- Claim C2 (code bug): the legacy format recognizes the seconds field `:60`
(mapping it to `(60, 1000)`), but chrono's `NaiveTime::from_hms_milli` rejects a
second of 60, so `RawEntry::parse` aborts instead of returning `Ok` or `Err` on an
otherwise-valid legacy line carrying `:60`. -/
theorem claim_C2_parse_panics_on_leap_second :
    parse_colon_second ":60".toList = .ok (60, 1000)
    ∧ NaiveTime.from_hms_milli_opt 0 19 60 1000 = none
    ∧ RawTimestamp.parse_old "Oct 10 00:19:60".toList = RResult.panic
    ∧ RawEntry.parse "<INFO    > Oct 10 00:19:60 axis-host foo: bar".toList
      = RResult.panic := by decide

/-- Inversion of the legacy level table: a recognized 11-byte tag is recovered exactly
by the reverse table, and `Level::as_ref` never reproduces it. -/
theorem parse_old_level_inv {t : List Char} {l : Level} (h : parse_old_level t = some l) :
    oldTagOfLevel l = t ∧ Level.as_ref l ≠ t := by
  unfold parse_old_level at h
  repeat' split at h
  all_goals cases h
  all_goals subst t
  all_goals decide

/-- Claim C3 counterexample: the legacy tag `<CRITICAL> ` maps to `Critical`, but
converting back through `Level::as_ref` yields `[ CRIT    ]`, not the original
legacy literal. -/
theorem claim_C3_counterexample :
    parse_old_level "<CRITICAL> ".toList = some Level.Critical
    ∧ Level.as_ref Level.Critical = "[ CRIT    ]".toList
    ∧ Level.as_ref Level.Critical ≠ "<CRITICAL> ".toList := by decide

/-- Claim C3 amended: for every line accepted by the legacy parser, the level tag
(the first 11 bytes) is recovered losslessly by the legacy tag table, but
`Level::as_ref` returns the bracketed new-format tag, which never equals the
original legacy tag. -/
theorem claim_C3_amended (s : List Char) (e : RawEntry)
    (h : RawEntry.parse_old s = .ok e) :
    oldTagOfLevel e.level = s.take 11 ∧ Level.as_ref e.level ≠ s.take 11 := by
  simp only [RawEntry.parse_old] at h
  split at h
  · cases h
  · split at h
    · cases h
    · cases hlv : parse_old_level (s.take 11) with
      | none => simp only [hlv] at h; cases h
      | some lvl =>
        simp only [hlv] at h
        cases hts : RawTimestamp.parse_old ((s.drop 11).take 15) with
        | err => simp only [hts] at h; cases h
        | panic => simp only [hts] at h; cases h
        | ok ts =>
          simp only [hts] at h
          cases hfi : findCharIdx ' ' (s.drop 27) with
          | none => simp only [hfi] at h; cases h
          | some i =>
            simp only [hfi] at h
            cases hpr : parse_rest (((s.drop 27).drop i).drop 1) with
            | err => simp only [hpr] at h; cases h
            | panic => simp only [hpr] at h; cases h
            | ok p =>
              obtain ⟨src, msg⟩ := p
              simp only [hpr] at h
              injection h with h
              subst h
              exact parse_old_level_inv hlv

/-- Witness for the amended C3 at a concrete legacy line. -/
theorem claim_C3_witness :
    oldTagOfLevel (RawEntry.mk (RawTimestamp.Partial 10 10 ⟨0, 19, 57, 0⟩)
        "axis-host".toList Level.Info Source.None "msg".toList).level
      = ("<INFO    > Oct 10 00:19:57 axis-host msg".toList).take 11
    ∧ Level.as_ref (RawEntry.mk (RawTimestamp.Partial 10 10 ⟨0, 19, 57, 0⟩)
        "axis-host".toList Level.Info Source.None "msg".toList).level
      ≠ ("<INFO    > Oct 10 00:19:57 axis-host msg".toList).take 11 :=
  claim_C3_amended "<INFO    > Oct 10 00:19:57 axis-host msg".toList
    ⟨RawTimestamp.Partial 10 10 ⟨0, 19, 57, 0⟩, "axis-host".toList, Level.Info,
      Source.None, "msg".toList⟩ (by decide)

/-- Claim C7 counterexample: the claim's own example token, with the literal `Z` in
place of the 6-character offset, is rejected by the new-format timestamp parser — it
is 24 characters long and the parser demands exactly 29. -/
theorem claim_C7_counterexample :
    RawTimestamp.parse_new "2020-10-09T10:30:02.425Z".toList = RResult.err := by decide

/-- Claim C7 amended: the offset sub-parser does map the literal `Z` to offset `0`,
but the 29-character length check makes `RawTimestamp::parse_new` reject every token
whose offset field is the literal `Z` in place of the 6-character `±HH:MM` offset
(such tokens are 24 characters long), so the `Z` arm is unreachable from it. -/
theorem claim_C7_amended (p : List Char) (hp : p.length = 23) :
    parse_offset ['Z'] = .ok 0
    ∧ RawTimestamp.parse_new (p ++ ['Z']) = RResult.err := by
  refine ⟨by decide, ?_⟩
  have hne : (p ++ ['Z']).length ≠ 29 := by simp [hp]
  unfold RawTimestamp.parse_new
  rw [if_pos hne]

/-- Witness for the amended C7 at the claim's example token. -/
theorem claim_C7_witness :
    parse_offset ['Z'] = .ok 0
    ∧ RawTimestamp.parse_new ("2020-10-09T10:30:02.425".toList ++ ['Z']) = RResult.err :=
  claim_C7_amended "2020-10-09T10:30:02.425".toList (by decide)

/-- Claim C8 counterexample: an otherwise-valid legacy line whose single-digit day is
written right-padded (digit then space, `5 `) fails to parse, in both the legacy
parser and the combined parser. -/
theorem claim_C8_counterexample :
    RawEntry.parse_old "<INFO    > Oct 5  15:41:26 axis-host foo".toList = RResult.err
    ∧ RawEntry.parse "<INFO    > Oct 5  15:41:26 axis-host foo".toList = RResult.err := by
  decide

/-- Inversion of `RawEntry::parse_old`: a successful parse determines every check and
field of the fixed-column format. -/
theorem parse_old_entry_inv {s : List Char} {e : RawEntry}
    (h : RawEntry.parse_old s = .ok e) :
    ∃ (lvl : Level) (rt : RawTimestamp) (i : Nat) (src : Source) (msg : List Char),
      ¬s.length < 30
      ∧ ¬((s.drop 26).take 1 ≠ [' '])
      ∧ parse_old_level (s.take 11) = some lvl
      ∧ RawTimestamp.parse_old ((s.drop 11).take 15) = .ok rt
      ∧ findCharIdx ' ' (s.drop 27) = some i
      ∧ parse_rest (((s.drop 27).drop i).drop 1) = .ok (src, msg)
      ∧ e = ⟨rt, (s.drop 27).take i, lvl, src, msg⟩ := by
  by_cases h30 : s.length < 30
  · simp only [RawEntry.parse_old, if_pos h30] at h
    cases h
  by_cases hsp : (s.drop 26).take 1 ≠ [' ']
  · simp only [RawEntry.parse_old, if_neg h30, if_pos hsp] at h
    cases h
  simp only [RawEntry.parse_old, if_neg h30, if_neg hsp] at h
  cases hlv : parse_old_level (s.take 11) with
  | none => simp only [hlv] at h; cases h
  | some lvl =>
    simp only [hlv] at h
    cases hts : RawTimestamp.parse_old ((s.drop 11).take 15) with
    | err => simp only [hts] at h; cases h
    | panic => simp only [hts] at h; cases h
    | ok rt =>
      simp only [hts] at h
      cases hfi : findCharIdx ' ' (s.drop 27) with
      | none => simp only [hfi] at h; cases h
      | some i =>
        simp only [hfi] at h
        cases hpr : parse_rest (((s.drop 27).drop i).drop 1) with
        | err => simp only [hpr] at h; cases h
        | panic => simp only [hpr] at h; cases h
        | ok p =>
          obtain ⟨src, msg⟩ := p
          simp only [hpr] at h
          injection h with h
          exact ⟨lvl, rt, i, src, msg, h30, hsp, rfl, rfl, rfl, hpr, h.symm⟩

/-- Converse direction: the checks and fields of the fixed-column format determine a
successful `RawEntry::parse_old`. -/
theorem parse_old_entry_forward (u : List Char) (lvl : Level) (rt : RawTimestamp)
    (i : Nat) (src : Source) (msg : List Char)
    (hlen : ¬u.length < 30)
    (hsep : ¬((u.drop 26).take 1 ≠ [' ']))
    (hlv : parse_old_level (u.take 11) = some lvl)
    (hts : RawTimestamp.parse_old ((u.drop 11).take 15) = .ok rt)
    (hfi : findCharIdx ' ' (u.drop 27) = some i)
    (hpr : parse_rest (((u.drop 27).drop i).drop 1) = .ok (src, msg)) :
    RawEntry.parse_old u = .ok ⟨rt, (u.drop 27).take i, lvl, src, msg⟩ := by
  simp only [RawEntry.parse_old, if_neg hlen, if_neg hsep, hlv, hts, hfi, hpr]

/-- Inversion of `RawTimestamp::parse_old`: a successful parse determines every field of
the 15-character timestamp and shows the result is a `Partial`. -/
theorem parse_old_ts_inv {t : List Char} {rt : RawTimestamp}
    (h : RawTimestamp.parse_old t = .ok rt) :
    ∃ (m dv hrv mnv sec msi : Nat) (hms : NaiveTime),
      ¬(t.length ≠ 15)
      ∧ parse_month_space (t.take 4) = .ok m
      ∧ parse_day_space ((t.drop 4).take 3) = .ok dv
      ∧ parse_hour ((t.drop 7).take 2) = .ok hrv
      ∧ parse_colon_minute ((t.drop 9).take 3) = .ok mnv
      ∧ parse_colon_second ((t.drop 12).take 3) = .ok (sec, msi)
      ∧ NaiveTime.from_hms_milli_opt hrv mnv sec msi = some hms
      ∧ rt = RawTimestamp.Partial m dv hms := by
  by_cases hlen : t.length ≠ 15
  · simp only [RawTimestamp.parse_old, if_pos hlen] at h
    cases h
  simp only [RawTimestamp.parse_old, if_neg hlen] at h
  cases hmon : parse_month_space (t.take 4) with
  | err => simp only [hmon] at h; cases h
  | panic => simp only [hmon] at h; cases h
  | ok m =>
    simp only [hmon] at h
    cases hday : parse_day_space ((t.drop 4).take 3) with
    | err => simp only [hday] at h; cases h
    | panic => simp only [hday] at h; cases h
    | ok dv =>
      simp only [hday] at h
      cases hhr : parse_hour ((t.drop 7).take 2) with
      | err => simp only [hhr] at h; cases h
      | panic => simp only [hhr] at h; cases h
      | ok hrv =>
        simp only [hhr] at h
        cases hmn : parse_colon_minute ((t.drop 9).take 3) with
        | err => simp only [hmn] at h; cases h
        | panic => simp only [hmn] at h; cases h
        | ok mnv =>
          simp only [hmn] at h
          cases hsc : parse_colon_second ((t.drop 12).take 3) with
          | err => simp only [hsc] at h; cases h
          | panic => simp only [hsc] at h; cases h
          | ok q =>
            obtain ⟨sec, msi⟩ := q
            simp only [hsc] at h
            cases hhms : NaiveTime.from_hms_milli_opt hrv mnv sec msi with
            | none => simp only [hhms] at h; cases h
            | some hms =>
              simp only [hhms] at h
              injection h with h
              exact ⟨m, dv, hrv, mnv, sec, msi, hms, hlen, rfl, rfl, rfl, rfl, rfl,
                hhms, h.symm⟩

/-- Converse direction: valid fields make `RawTimestamp::parse_old` succeed. -/
theorem parse_old_ts_forward (t : List Char) (m dv hrv mnv sec msi : Nat)
    (hms : NaiveTime)
    (hlen : ¬(t.length ≠ 15))
    (hmon : parse_month_space (t.take 4) = .ok m)
    (hday : parse_day_space ((t.drop 4).take 3) = .ok dv)
    (hhr : parse_hour ((t.drop 7).take 2) = .ok hrv)
    (hmn : parse_colon_minute ((t.drop 9).take 3) = .ok mnv)
    (hsc : parse_colon_second ((t.drop 12).take 3) = .ok (sec, msi))
    (hhms : NaiveTime.from_hms_milli_opt hrv mnv sec msi = some hms) :
    RawTimestamp.parse_old t = .ok (RawTimestamp.Partial m dv hms) := by
  simp only [RawTimestamp.parse_old, if_neg hlen, hmon, hday, hhr, hmn, hsc, hhms]

/-- Every field the day table accepts has a space as its third character: single-digit
days are left-padded, and the third byte is the separator before the hour. -/
theorem parse_day_space_shape {t : List Char} {n : Nat}
    (h : parse_day_space t = .ok n) : ∃ x y : Char, t = [x, y, ' '] := by
  unfold parse_day_space at h
  by_cases c1 : t = [' ', '1', ' ']
  · exact ⟨_, _, c1⟩
  rw [if_neg c1] at h
  by_cases c2 : t = [' ', '2', ' ']
  · exact ⟨_, _, c2⟩
  rw [if_neg c2] at h
  by_cases c3 : t = [' ', '3', ' ']
  · exact ⟨_, _, c3⟩
  rw [if_neg c3] at h
  by_cases c4 : t = [' ', '4', ' ']
  · exact ⟨_, _, c4⟩
  rw [if_neg c4] at h
  by_cases c5 : t = [' ', '5', ' ']
  · exact ⟨_, _, c5⟩
  rw [if_neg c5] at h
  by_cases c6 : t = [' ', '6', ' ']
  · exact ⟨_, _, c6⟩
  rw [if_neg c6] at h
  by_cases c7 : t = [' ', '7', ' ']
  · exact ⟨_, _, c7⟩
  rw [if_neg c7] at h
  by_cases c8 : t = [' ', '8', ' ']
  · exact ⟨_, _, c8⟩
  rw [if_neg c8] at h
  by_cases c9 : t = [' ', '9', ' ']
  · exact ⟨_, _, c9⟩
  rw [if_neg c9] at h
  by_cases c10 : t = ['1', '0', ' ']
  · exact ⟨_, _, c10⟩
  rw [if_neg c10] at h
  by_cases c11 : t = ['1', '1', ' ']
  · exact ⟨_, _, c11⟩
  rw [if_neg c11] at h
  by_cases c12 : t = ['1', '2', ' ']
  · exact ⟨_, _, c12⟩
  rw [if_neg c12] at h
  by_cases c13 : t = ['1', '3', ' ']
  · exact ⟨_, _, c13⟩
  rw [if_neg c13] at h
  by_cases c14 : t = ['1', '4', ' ']
  · exact ⟨_, _, c14⟩
  rw [if_neg c14] at h
  by_cases c15 : t = ['1', '5', ' ']
  · exact ⟨_, _, c15⟩
  rw [if_neg c15] at h
  by_cases c16 : t = ['1', '6', ' ']
  · exact ⟨_, _, c16⟩
  rw [if_neg c16] at h
  by_cases c17 : t = ['1', '7', ' ']
  · exact ⟨_, _, c17⟩
  rw [if_neg c17] at h
  by_cases c18 : t = ['1', '8', ' ']
  · exact ⟨_, _, c18⟩
  rw [if_neg c18] at h
  by_cases c19 : t = ['1', '9', ' ']
  · exact ⟨_, _, c19⟩
  rw [if_neg c19] at h
  by_cases c20 : t = ['2', '0', ' ']
  · exact ⟨_, _, c20⟩
  rw [if_neg c20] at h
  by_cases c21 : t = ['2', '1', ' ']
  · exact ⟨_, _, c21⟩
  rw [if_neg c21] at h
  by_cases c22 : t = ['2', '2', ' ']
  · exact ⟨_, _, c22⟩
  rw [if_neg c22] at h
  by_cases c23 : t = ['2', '3', ' ']
  · exact ⟨_, _, c23⟩
  rw [if_neg c23] at h
  by_cases c24 : t = ['2', '4', ' ']
  · exact ⟨_, _, c24⟩
  rw [if_neg c24] at h
  by_cases c25 : t = ['2', '5', ' ']
  · exact ⟨_, _, c25⟩
  rw [if_neg c25] at h
  by_cases c26 : t = ['2', '6', ' ']
  · exact ⟨_, _, c26⟩
  rw [if_neg c26] at h
  by_cases c27 : t = ['2', '7', ' ']
  · exact ⟨_, _, c27⟩
  rw [if_neg c27] at h
  by_cases c28 : t = ['2', '8', ' ']
  · exact ⟨_, _, c28⟩
  rw [if_neg c28] at h
  by_cases c29 : t = ['2', '9', ' ']
  · exact ⟨_, _, c29⟩
  rw [if_neg c29] at h
  by_cases c30 : t = ['3', '0', ' ']
  · exact ⟨_, _, c30⟩
  rw [if_neg c30] at h
  by_cases c31 : t = ['3', '1', ' ']
  · exact ⟨_, _, c31⟩
  rw [if_neg c31] at h
  cases h

/-- The left-padded form of each single-digit day is accepted with that day value. -/
theorem parse_day_space_left_pad (d : Nat) (h1 : 1 ≤ d) (h9 : d ≤ 9) :
    parse_day_space [' ', Nat.digitChar d, ' '] = .ok d := by
  interval_cases d <;> decide

/-- Claim C8 amended: in the legacy 15-character timestamp the 2-character day for a
single-digit day `D` is the digit LEFT-padded with a space (space then `D`), and every
otherwise-valid legacy line whose day field is written this way parses successfully
with day `D`: universally, every line the legacy parser accepts yields a `Partial`
timestamp, and replacing its 2-byte day field (bytes 15–16) with the left-padded `D`
gives a line that parses with day `D` and otherwise-identical fields.  (The
right-padded form instead fails; see the counterexample.) -/
theorem claim_C8_amended (s : List Char) (e : RawEntry) (d : Nat)
    (hd1 : 1 ≤ d) (hd9 : d ≤ 9)
    (h : RawEntry.parse_old s = .ok e) :
    ∃ m d0 : Nat, ∃ hms : NaiveTime,
      e.timestamp = RawTimestamp.Partial m d0 hms
      ∧ RawEntry.parse_old (s.take 15 ++ ' ' :: Nat.digitChar d :: s.drop 17)
        = .ok ⟨RawTimestamp.Partial m d hms, e.hostname, e.level, e.source, e.message⟩ := by
  obtain ⟨lvl, rt, i, src, msg, h30, hsp, hlv, hts, hfi, hpr, he⟩ := parse_old_entry_inv h
  obtain ⟨m, dv, hrv, mnv, sec, msi, hms, ht15, hmon, hday, hhr, hmn, hsc, hhms, hrt⟩ :=
    parse_old_ts_inv hts
  subst he
  subst hrt
  refine ⟨m, dv, hms, rfl, ?_⟩
  have h30' : 30 ≤ s.length := by omega
  -- normalize the nested timestamp slices to direct slices of `s`
  have e1 : ((s.drop 11).take 15).take 4 = (s.drop 11).take 4 := by
    simp [List.take_take]
  have e2 : (((s.drop 11).take 15).drop 4).take 3 = (s.drop 15).take 3 := by
    rw [List.drop_take, List.drop_drop]
    simp [List.take_take]
  have e3 : (((s.drop 11).take 15).drop 7).take 2 = (s.drop 18).take 2 := by
    rw [List.drop_take, List.drop_drop]
    simp [List.take_take]
  have e4 : (((s.drop 11).take 15).drop 9).take 3 = (s.drop 20).take 3 := by
    rw [List.drop_take, List.drop_drop]
    simp [List.take_take]
  have e5 : (((s.drop 11).take 15).drop 12).take 3 = (s.drop 23).take 3 := by
    rw [List.drop_take, List.drop_drop]
    simp [List.take_take]
  rw [e1] at hmon
  rw [e2] at hday
  rw [e3] at hhr
  rw [e4] at hmn
  rw [e5] at hsc
  -- the day field's third byte is the separator space, so bytes 17.. start with ' '
  obtain ⟨x, y, hxy⟩ := parse_day_space_shape hday
  have hu : s.drop 15 = x :: y :: ' ' :: s.drop 18 := by
    have h1 := List.take_append_drop 3 (s.drop 15)
    rw [hxy, List.drop_drop] at h1
    exact h1.symm
  have h17 : s.drop 17 = ' ' :: s.drop 18 := by
    have h2 : s.drop 17 = (s.drop 15).drop 2 := by rw [List.drop_drop]
    rw [h2, hu]
    rfl
  rw [h17]
  -- length bookkeeping
  have hL : (s.take 15).length = 15 := by
    simp only [List.length_take]
    omega
  have hA4 : ((s.drop 11).take 4).length = 4 := by
    simp only [List.length_take, List.length_drop]
    omega
  -- slices of the day-substituted line
  have hulen : (s.take 15 ++ ' ' :: Nat.digitChar d :: ' ' :: s.drop 18).length = s.length := by
    simp only [List.length_append, List.length_cons, List.length_take, List.length_drop]
    omega
  have g3 : (s.take 15 ++ ' ' :: Nat.digitChar d :: ' ' :: s.drop 18).take 11 = s.take 11 := by
    rw [List.take_append_eq_append_take, hL]
    simp [List.take_take]
  have g4 : (s.take 15 ++ ' ' :: Nat.digitChar d :: ' ' :: s.drop 18).drop 26 = s.drop 26 := by
    rw [List.drop_append_eq_append_drop, hL]
    rw [show (s.take 15).drop 26 = [] from List.drop_eq_nil_of_le (by omega)]
    show (s.drop 18).drop 8 = s.drop 26
    rw [List.drop_drop]
  have g5 : (s.take 15 ++ ' ' :: Nat.digitChar d :: ' ' :: s.drop 18).drop 27 = s.drop 27 := by
    rw [List.drop_append_eq_append_drop, hL]
    rw [show (s.take 15).drop 27 = [] from List.drop_eq_nil_of_le (by omega)]
    show (s.drop 18).drop 9 = s.drop 27
    rw [List.drop_drop]
  have g6a : (s.take 15 ++ ' ' :: Nat.digitChar d :: ' ' :: s.drop 18).drop 11
      = (s.drop 11).take 4 ++ ' ' :: Nat.digitChar d :: ' ' :: s.drop 18 := by
    rw [List.drop_append_of_le_length (by omega), List.drop_take]
  have g6 : ((s.take 15 ++ ' ' :: Nat.digitChar d :: ' ' :: s.drop 18).drop 11).take 15
      = (s.drop 11).take 4 ++ ' ' :: Nat.digitChar d :: ' ' :: (s.drop 18).take 8 := by
    rw [g6a]
    rw [show (15 : Nat) = ((s.drop 11).take 4).length + 11 by rw [hA4]]
    rw [List.take_append]
    rfl
  -- field slices of the substituted timestamp
  have f0 : ((s.drop 11).take 4 ++ ' ' :: Nat.digitChar d :: ' ' :: (s.drop 18).take 8).length
      = 15 := by
    simp only [List.length_append, List.length_cons, List.length_take, List.length_drop]
    omega
  have f1 : ((s.drop 11).take 4 ++ ' ' :: Nat.digitChar d :: ' ' :: (s.drop 18).take 8).take 4
      = (s.drop 11).take 4 := by
    rw [List.take_append_eq_append_take, hA4]
    simp [List.take_take]
  have f2 : (((s.drop 11).take 4
        ++ ' ' :: Nat.digitChar d :: ' ' :: (s.drop 18).take 8).drop 4).take 3
      = [' ', Nat.digitChar d, ' '] := by
    rw [List.drop_append_eq_append_drop, hA4]
    rw [show ((s.drop 11).take 4).drop 4 = [] from List.drop_eq_nil_of_le (by omega)]
    rfl
  have f3 : (((s.drop 11).take 4
        ++ ' ' :: Nat.digitChar d :: ' ' :: (s.drop 18).take 8).drop 7).take 2
      = (s.drop 18).take 2 := by
    rw [List.drop_append_eq_append_drop, hA4]
    rw [show ((s.drop 11).take 4).drop 7 = [] from List.drop_eq_nil_of_le (by omega)]
    show ((s.drop 18).take 8).take 2 = (s.drop 18).take 2
    simp [List.take_take]
  have f4 : (((s.drop 11).take 4
        ++ ' ' :: Nat.digitChar d :: ' ' :: (s.drop 18).take 8).drop 9).take 3
      = (s.drop 20).take 3 := by
    rw [List.drop_append_eq_append_drop, hA4]
    rw [show ((s.drop 11).take 4).drop 9 = [] from List.drop_eq_nil_of_le (by omega)]
    show (((s.drop 18).take 8).drop 2).take 3 = (s.drop 20).take 3
    rw [List.drop_take, List.drop_drop]
    simp [List.take_take]
  have f5 : (((s.drop 11).take 4
        ++ ' ' :: Nat.digitChar d :: ' ' :: (s.drop 18).take 8).drop 12).take 3
      = (s.drop 23).take 3 := by
    rw [List.drop_append_eq_append_drop, hA4]
    rw [show ((s.drop 11).take 4).drop 12 = [] from List.drop_eq_nil_of_le (by omega)]
    show (((s.drop 18).take 8).drop 5).take 3 = (s.drop 23).take 3
    rw [List.drop_take, List.drop_drop]
    simp [List.take_take]
  -- the substituted timestamp parses with day `d`
  have hts' : RawTimestamp.parse_old
      (((s.take 15 ++ ' ' :: Nat.digitChar d :: ' ' :: s.drop 18).drop 11).take 15)
      = .ok (RawTimestamp.Partial m d hms) := by
    rw [g6]
    exact parse_old_ts_forward _ m d hrv mnv sec msi hms (by omega)
      (by rw [f1]; exact hmon)
      (by rw [f2]; exact parse_day_space_left_pad d hd1 hd9)
      (by rw [f3]; exact hhr)
      (by rw [f4]; exact hmn)
      (by rw [f5]; exact hsc)
      hhms
  -- assemble the substituted line's parse
  have main := parse_old_entry_forward
    (s.take 15 ++ ' ' :: Nat.digitChar d :: ' ' :: s.drop 18)
    lvl (RawTimestamp.Partial m d hms) i src msg
    (by omega)
    (by rw [g4]; exact hsp)
    (by rw [g3]; exact hlv)
    hts'
    (by rw [g5]; exact hfi)
    (by rw [g5]; exact hpr)
  rw [g5] at main
  exact main

/-- Witness for the amended C8: the accepted line `<NOTICE  > Feb 28 12:00:00 camera1
disk: full`, with its day field replaced by the left-padded `5`, parses with day 5. -/
theorem claim_C8_witness :
    ∃ m d0 : Nat, ∃ hms : NaiveTime,
      (RawEntry.mk (RawTimestamp.Partial 2 28 ⟨12, 0, 0, 0⟩) "camera1".toList Level.Notice
          (Source.Name "disk".toList) "full".toList).timestamp
        = RawTimestamp.Partial m d0 hms
      ∧ RawEntry.parse_old
          (("<NOTICE  > Feb 28 12:00:00 camera1 disk: full".toList).take 15
            ++ ' ' :: Nat.digitChar 5
              :: ("<NOTICE  > Feb 28 12:00:00 camera1 disk: full".toList).drop 17)
        = .ok ⟨RawTimestamp.Partial m 5 hms, "camera1".toList, Level.Notice,
            Source.Name "disk".toList, "full".toList⟩ :=
  claim_C8_amended "<NOTICE  > Feb 28 12:00:00 camera1 disk: full".toList
    ⟨RawTimestamp.Partial 2 28 ⟨12, 0, 0, 0⟩, "camera1".toList, Level.Notice,
      Source.Name "disk".toList, "full".toList⟩ 5 (by decide) (by decide) (by decide)

/-- `parse_rest` never fails: both branches of both matches return `ok`. -/
theorem parse_rest_ok (rest : List Char) : ∃ p : Source × List Char, parse_rest rest = .ok p := by
  unfold parse_rest
  split
  · dsimp only
    split
    · exact ⟨_, rfl⟩
    · exact ⟨_, rfl⟩
  · exact ⟨_, rfl⟩

/-- Claim C4 counterexample: a line whose three tokens are a valid new-format
timestamp, a hostname, and exactly the recognized 12-character level tag — i.e. an
empty tail — is rejected by `RawEntry::parse_new` (its `rest.len() < 13` check),
although the claim says such a line must succeed. -/
theorem claim_C4_counterexample :
    splitn3 "2020-10-09T10:30:02.425-05:00 axis-accc8ef7d108 [ INFO    ] ".toList
      = some ("2020-10-09T10:30:02.425-05:00".toList, "axis-accc8ef7d108".toList,
        "[ INFO    ] ".toList)
    ∧ RawTimestamp.parse_new "2020-10-09T10:30:02.425-05:00".toList
      = RResult.ok (RawTimestamp.FixedOffset ⟨⟨⟨2020, 10, 9⟩, ⟨15, 30, 2, 425⟩⟩, -18000⟩)
    ∧ parse_new_level ("[ INFO    ] ".toList.take 12) = some Level.Info
    ∧ RawEntry.parse_new
        "2020-10-09T10:30:02.425-05:00 axis-accc8ef7d108 [ INFO    ] ".toList
      = RResult.err := by decide

/-- Claim C4 amended: `RawEntry::parse_new` succeeds exactly when the line splits into
3 space-separated tokens, the timestamp token parses, the remainder token is at least
13 bytes long (a recognized 12-character level tag plus a nonempty tail — an empty
tail is rejected), and the first 12 bytes of the remainder are a recognized level
tag; it fails in every other case. -/
theorem claim_C4_amended (s : List Char) :
    (∃ e : RawEntry, RawEntry.parse_new s = .ok e) ↔
    (∃ t1 t2 r, splitn3 s = some (t1, t2, r)
      ∧ (∃ rts : RawTimestamp, RawTimestamp.parse_new t1 = .ok rts)
      ∧ 13 ≤ r.length
      ∧ (∃ l : Level, parse_new_level (r.take 12) = some l)) := by
  unfold RawEntry.parse_new
  cases hsp : splitn3 s with
  | none => simp
  | some t =>
    obtain ⟨t1, t2, r⟩ := t
    cases hts : RawTimestamp.parse_new t1 with
    | err => simp [hts]
    | panic => simp [hts]
    | ok rts =>
      by_cases hlen : r.length < 13
      · have h13 : ¬(13 ≤ r.length) := by omega
        simp [if_pos hlen, hts, h13]
      · have h13 : 13 ≤ r.length := by omega
        cases hlv : parse_new_level (r.take 12) with
        | none => simp [if_neg hlen, hts, hlv]
        | some lvl =>
          obtain ⟨p, hp⟩ := parse_rest_ok (r.drop 12)
          obtain ⟨src, msg⟩ := p
          simp only [if_neg hlen, hts, hlv, hp]
          constructor
          · intro _
            exact ⟨t1, t2, r, rfl, ⟨rts, hts⟩, h13, ⟨lvl, hlv⟩⟩
          · intro _
            exact ⟨⟨rts, t2, lvl, src, msg⟩, rfl⟩
